import Mathlib

/-!
Verification of the framework-extensions data-management core against its
specification.

The development shallowly embeds two source files:

* src/db/arakoon/pyrakoon/client/mock.py — the in-memory mock Arakoon
  key-value store (class MockPyrakoonClient), and
* src/dal/base.py — the lightweight object-relational layer (class Base),
  together with src/dal/structures.py (class Property).

Python values are modelled by the inductive type PyVal; Python dictionaries
by insertion-ordered association lists (assignment replaces in place,
otherwise appends, exactly like a Python dict preserves insertion order);
raised exceptions by an Except / Option error channel (PyErr).  Machine
integers do not occur: Python integers are unbounded, so Int is exact.
-/

/-- Python values as they occur in the store and in DAL properties:
None, int, str, bool, list and (string-keyed) dict. -/
inductive PyVal : Type
  | none : PyVal
  | int (i : Int) : PyVal
  | str (s : String) : PyVal
  | bool (b : Bool) : PyVal
  | list (xs : List PyVal) : PyVal
  | dict (kvs : List (String × PyVal)) : PyVal

/-- Exceptions raised by the embedded code.  ArakoonNotFound is the
not-found / precondition-failed error of the mock store; keyError,
attributeError and typeError are the corresponding Python built-ins;
objectNotFound is ObjectNotFoundException of src/dal/base.py;
integrityError is a storage-level constraint violation raised by SQLite;
valueError covers the ValueError raises of base.py. -/
inductive PyErr : Type
  | notFound (key : String)
  | keyError (key : String)
  | attributeError (msg : String)
  | typeError (msg : String)
  | objectNotFound
  | integrityError (msg : String)
  | valueError (msg : String)
  deriving DecidableEq

/-- Lookup in a Python dict modelled as an association list (d.get / d[k]). -/
def alookup {α : Type} : List (String × α) → String → Option α
  | [], _ => Option.none
  | (k2, v) :: rest, k => if k2 = k then some v else alookup rest k

/-- Assignment d[k] = v on a Python dict: replaces the value in place when
the key is present, otherwise appends (insertion order preserved). -/
def aset {α : Type} : List (String × α) → String → α → List (String × α)
  | [], k, v => [(k, v)]
  | (k2, v2) :: rest, k, v =>
    if k2 = k then (k, v) :: rest else (k2, v2) :: aset rest k v

/-- Deletion del d[k] on a Python dict. -/
def aerase {α : Type} : List (String × α) → String → List (String × α)
  | [], _ => []
  | (k2, v2) :: rest, k => if k2 = k then rest else (k2, v2) :: aerase rest k

/-- Python str.startswith, on the character sequences of the strings. -/
def startswith (s pfx : String) : Bool :=
  pfx.toList.isPrefixOf s.toList

/-- Insertion of a key / rendered-value pair into a list sorted by key
(helper for the sort_keys=True rendering below). -/
def sortedInsertPair (p : String × String) : List (String × String) → List (String × String)
  | [] => [p]
  | q :: rest => if p.1 ≤ q.1 then p :: q :: rest else q :: sortedInsertPair p rest

/-- Insertion sort of dict entries by key, as sort_keys=True does. -/
def sortPairsByKey : List (String × String) → List (String × String)
  | [] => []
  | p :: rest => sortedInsertPair p (sortPairsByKey rest)

/-- Comma-joins rendered JSON fragments. -/
def joinComma : List String → String
  | [] => ""
  | [x] => x
  | x :: rest => x ++ ", " ++ joinComma rest

mutual

/-- Rendering of a Python value as JSON text with sorted dict keys:
the model of ujson.dumps(v, sort_keys=True) used by assertValue in
mock.py (line 162).  String escaping is left out: it only affects which
exact text is produced, not whether two values render equally, which is
all the source compares. -/
def pyDumps : PyVal → String
  | PyVal.none => "null"
  | PyVal.bool true => "true"
  | PyVal.bool false => "false"
  | PyVal.int i => toString i
  | PyVal.str s => "\"" ++ s ++ "\""
  | PyVal.list xs => "[" ++ joinComma (pyDumpsList xs) ++ "]"
  | PyVal.dict kvs =>
    "\x7b" ++
      joinComma ((sortPairsByKey (pyDumpsPairs kvs)).map
        (fun p => "\"" ++ p.1 ++ "\": " ++ p.2)) ++
    "\x7d"

/-- Renders every element of a list. -/
def pyDumpsList : List PyVal → List String
  | [] => []
  | v :: rest => pyDumps v :: pyDumpsList rest

/-- Renders every dict entry to a (key, rendered value) pair. -/
def pyDumpsPairs : List (String × PyVal) → List (String × String)
  | [] => []
  | (k, v) :: rest => (k, pyDumps v) :: pyDumpsPairs rest

end

namespace Mock

/-- One buffered transaction operation, as recorded by the transaction
branches of set / delete / assertValue / assertExists in mock.py: the
pair [bound method, keyword arguments] is modelled by a tagged operation.
Replaying item[0](**item[1]) calls the method without a transaction
argument, i.e. the live branch. -/
inductive TxOp : Type
  | set (key : String) (value : PyVal)
  | delete (key : String) (must_exist : Bool)
  | assertValue (key : String) (value : PyVal)
  | assertExists (key : String)

/-- The class-level state of MockPyrakoonClient: _data maps a cluster name
to its key-value mapping, _sequences maps a cluster name to a dict from
transaction handle to the recorded operation list (mock.py lines 35-36,
45-48 and 181).  A client instance carries no state of its own beyond its
cluster name, so a client is represented by the cluster string it passes
to these operations. -/
structure MockState : Type where
  data : List (String × List (String × PyVal))
  sequences : List (String × List (String × List TxOp))

/-- MockPyrakoonClient.__init__ for a given cluster: registers an empty
sequence dict and an empty data dict for the cluster unless they already
exist (lines 45-48).  The nodes argument is discarded by the source. -/
def init (st : MockState) (cluster : String) : MockState :=
  let st1 :=
    if (alookup st.sequences cluster).isSome then st
    else { st with sequences := aset st.sequences cluster [] }
  if (alookup st1.data cluster).isSome then st1
  else { st1 with data := aset st1.data cluster [] }

/-- MockPyrakoonClient._read: self._data.get(self._cluster, dict()). -/
def read (st : MockState) (cluster : String) : List (String × PyVal) :=
  (alookup st.data cluster).getD []

/-- MockPyrakoonClient._write: self._data[self._cluster] = data. -/
def write (st : MockState) (cluster : String) (d : List (String × PyVal)) : MockState :=
  { st with data := aset st.data cluster d }

/-- MockPyrakoonClient.get: returns copy.deepcopy(data[key]) when the key
is present, else raises ArakoonNotFound(key).  Values are immutable terms
in this embedding, so deepcopy is the identity here; object identity and
the deep copies are modelled separately in the MockHeap namespace. -/
def get (st : MockState) (cluster key : String) : Except PyErr PyVal :=
  match alookup (read st cluster) key with
  | some v => Except.ok v
  | Option.none => Except.error (PyErr.notFound key)

/-- The result of self._sequences[transaction] at a top level of the
sequence registry, shared by the transaction branches of set, delete,
assertValue, assertExists and by apply_transaction: the registry is
keyed by cluster name at its top level (lines 45-46 and 181), so looking
a transaction handle up there raises KeyError; if the handle happened to
equal a cluster name the looked-up value would be the inner dict, and
calling .append on a dict raises AttributeError. -/
def bufferOp (st : MockState) (transaction : String) : Except PyErr MockState :=
  match alookup st.sequences transaction with
  | Option.none => Except.error (PyErr.keyError transaction)
  | some _ => Except.error (PyErr.attributeError "dict object has no attribute append")

/-- MockPyrakoonClient.set (lines 82-91): with a transaction, records the
operation (see bufferOp for what the lookup actually does); without one,
stores a deep copy of the value under the key. -/
def set (st : MockState) (cluster key : String) (value : PyVal)
    (transaction : Option String) : Except PyErr MockState :=
  match transaction with
  | some t => bufferOp st t
  | Option.none => Except.ok (write st cluster (aset (read st cluster) key value))

/-- MockPyrakoonClient.delete (lines 109-121). -/
def delete (st : MockState) (cluster key : String) (must_exist : Bool)
    (transaction : Option String) : Except PyErr MockState :=
  match transaction with
  | some t => bufferOp st t
  | Option.none =>
    let data := read st cluster
    if (alookup data key).isSome then Except.ok (write st cluster (aerase data key))
    else if must_exist then Except.error (PyErr.notFound key)
    else Except.ok st

/-- MockPyrakoonClient.delete_prefix (lines 123-133): the transaction
argument is explicitly discarded by the source (line 128, underscore
assignment), so the deletion always applies immediately to the live
mapping, transaction handle or not. -/
def delete_pfx (st : MockState) (cluster p : String)
    (transaction : Option String) : MockState :=
  let _ := transaction
  write st cluster ((read st cluster).filter (fun kv => !(startswith kv.1 p)))

/-- MockPyrakoonClient.prefix (lines 93-99): all keys starting with the
given prefix, in mapping order. -/
def prefix_keys (st : MockState) (cluster p : String) : List String :=
  ((read st cluster).map Prod.fst).filter (fun k => startswith k p)

/-- MockPyrakoonClient.prefix_entries (lines 101-107): all (key, value)
pairs whose key starts with the given prefix.  Note the stored values are
returned as they are, without the deepcopy that get performs. -/
def prefix_entries (st : MockState) (cluster p : String) : List (String × PyVal) :=
  (read st cluster).filter (fun kv => startswith kv.1 p)

/-- The generator body of MockPyrakoonClient.get_multi over an already
read data mapping: yields the (deep-copied) value of each present key in
order and stops with ArakoonNotFound at the first absent key.  The pair
collects the values yielded before the generator either finished (error
component Option.none) or raised. -/
def get_multi_go (data : List (String × PyVal)) : List String → List PyVal × Option PyErr
  | [] => ([], Option.none)
  | k :: rest =>
    match alookup data k with
    | some v =>
      let r := get_multi_go data rest
      (v :: r.1, r.2)
    | Option.none => ([], some (PyErr.notFound k))

/-- MockPyrakoonClient.get_multi (lines 69-80): the must_exist argument is
explicitly discarded by the source (line 74, underscore assignment). -/
def get_multi (st : MockState) (cluster : String) (keys : List String)
    (must_exist : Bool) : List PyVal × Option PyErr :=
  let _ := must_exist
  get_multi_go (read st cluster) keys

/-- MockPyrakoonClient.exists (lines 142-150): wraps get, converting
ArakoonNotFound into false. -/
def existsKey (st : MockState) (cluster key : String) : Bool :=
  match get st cluster key with
  | Except.ok _ => true
  | Except.error _ => false

/-- MockPyrakoonClient.assertValue (lines 152-163): raises
ArakoonNotFound when the key is absent or when the stored and the given
value render differently under ujson.dumps(. , sort_keys=True). -/
def assertValue (st : MockState) (cluster key : String) (value : PyVal)
    (transaction : Option String) : Except PyErr MockState :=
  match transaction with
  | some t => bufferOp st t
  | Option.none =>
    match alookup (read st cluster) key with
    | Option.none => Except.error (PyErr.notFound key)
    | some v =>
      if pyDumps v ≠ pyDumps value then Except.error (PyErr.notFound key)
      else Except.ok st

/-- MockPyrakoonClient.assertExists (lines 165-174). -/
def assertExists (st : MockState) (cluster key : String)
    (transaction : Option String) : Except PyErr MockState :=
  match transaction with
  | some t => bufferOp st t
  | Option.none =>
    match alookup (read st cluster) key with
    | Option.none => Except.error (PyErr.notFound key)
    | some _ => Except.ok st

/-- MockPyrakoonClient.begin_transaction (lines 176-182): allocates an
empty operation list under self._sequences[self._cluster][key], where key
is a fresh uuid4 string — modelled as the handle argument — and returns
the handle.  The direct indexing raises KeyError if the cluster was never
initialized. -/
def begin_transaction (st : MockState) (cluster handle : String) :
    Except PyErr (MockState × String) :=
  match alookup st.sequences cluster with
  | Option.none => Except.error (PyErr.keyError cluster)
  | some seqMap =>
    Except.ok ({ st with sequences := aset st.sequences cluster (aset seqMap handle []) }, handle)

/-- Replays one recorded operation against the live store: the stored
bound method is called with its recorded keyword arguments and no
transaction, i.e. the live branch of the method (mock.py line 190). -/
def execOp (st : MockState) (cluster : String) : TxOp → Except PyErr MockState
  | TxOp.set k v => set st cluster k v Option.none
  | TxOp.delete k me => delete st cluster k me Option.none
  | TxOp.assertValue k v => assertValue st cluster k v Option.none
  | TxOp.assertExists k => assertExists st cluster k Option.none

/-- The loop of MockPyrakoonClient.apply_transaction (lines 189-190) on a
recorded operation list: each operation executes in recorded order; the
first raising operation propagates its exception, the remaining
operations are skipped, and — the store being shared mutable state — all
effects of the already executed operations remain in place.  The result
pairs the store state reached with the propagated exception, if any. -/
def runOps (st : MockState) (cluster : String) : List TxOp → MockState × Option PyErr
  | [] => (st, Option.none)
  | op :: rest =>
    match execOp st cluster op with
    | Except.ok st2 => runOps st2 cluster rest
    | Except.error e => (st, some e)

/-- MockPyrakoonClient.apply_transaction (lines 184-190): looks the handle
up at the top level of the sequence registry — which is keyed by cluster
name, so a uuid handle raises KeyError; were the handle a cluster name,
the for loop would iterate the keys (strings) of the inner dict and
item[0](**item[1]) would raise TypeError on the first of them. -/
def apply_transaction (st : MockState) (cluster t : String) : MockState × Option PyErr :=
  let _ := cluster
  match alookup st.sequences t with
  | Option.none => (st, some (PyErr.keyError t))
  | some seqMap =>
    if seqMap.isEmpty then (st, Option.none)
    else (st, some (PyErr.typeError "str object is not callable"))

end Mock

namespace MockHeap

/-!
Object-identity model of the mock store, for the deep-copy claims.  Here
a Python value is a reference into a heap of mutable objects; each object
is a single mutable cell holding an Int (standing for, say, a one-element
list whose content can be mutated in place).  copy.deepcopy allocates a
structurally equal object at a fresh address; sharing an address is what
aliasing means.  The store maps keys to addresses.
-/

/-- Address lookup in the heap. -/
def nlookup : List (Nat × Int) → Nat → Option Int
  | [], _ => Option.none
  | (a2, x) :: rest, a => if a2 = a then some x else nlookup rest a

/-- Address update / insertion in the heap. -/
def nset : List (Nat × Int) → Nat → Int → List (Nat × Int)
  | [], a, x => [(a, x)]
  | (a2, x2) :: rest, a, x =>
    if a2 = a then (a, x) :: rest else (a2, x2) :: nset rest a x

/-- The heap: a bump allocator plus the allocated cells. -/
structure Heap : Type where
  next : Nat
  cells : List (Nat × Int)

/-- Allocates a fresh object holding x. -/
def alloc (h : Heap) (x : Int) : Heap × Nat :=
  (⟨h.next + 1, nset h.cells h.next x⟩, h.next)

/-- Reads the content of the object at an address. -/
def readCell (h : Heap) (a : Nat) : Int :=
  (nlookup h.cells a).getD 0

/-- Mutates the object at an address in place (the caller writing into a
mutable value it holds a reference to). -/
def writeCell (h : Heap) (a : Nat) (x : Int) : Heap :=
  ⟨h.next, nset h.cells a x⟩

/-- copy.deepcopy(a): a structurally equal object at a fresh address. -/
def deepcopy (h : Heap) (a : Nat) : Heap × Nat :=
  alloc h (readCell h a)

/-- The per-cluster key-to-object mapping of the mock store. -/
def AStore : Type := List (String × Nat)

/-- MockPyrakoonClient.get in the object model: returns
copy.deepcopy(data[key]) — a fresh address — or raises. -/
def get (h : Heap) (s : AStore) (k : String) : Except PyErr (Heap × Nat) :=
  match alookup s k with
  | some a => Except.ok (deepcopy h a)
  | Option.none => Except.error (PyErr.notFound k)

/-- MockPyrakoonClient.set in the object model: stores
copy.deepcopy(value), so the store never aliases the caller's object. -/
def set (h : Heap) (s : AStore) (k : String) (a : Nat) : Heap × AStore :=
  let r := deepcopy h a
  (r.1, aset s k r.2)

/-- The generator body of get_multi in the object model: one deep copy
per present key, stopping at the first absent one. -/
def get_multi_go (s : AStore) : Heap → List String → Heap × List Nat × Option PyErr
  | h, [] => (h, [], Option.none)
  | h, k :: rest =>
    match alookup s k with
    | some a =>
      let r := deepcopy h a
      let r2 := get_multi_go s r.1 rest
      (r2.1, r.2 :: r2.2.1, r2.2.2)
    | Option.none => (h, [], some (PyErr.notFound k))

/-- MockPyrakoonClient.get_multi in the object model: yields a deep copy
per present key, raising at the first absent one (must_exist is
discarded by the source, mock.py line 74). -/
def get_multi (h : Heap) (s : AStore) (keys : List String) (must_exist : Bool) :
    Heap × List Nat × Option PyErr :=
  let _ := must_exist
  get_multi_go s h keys

/-- MockPyrakoonClient.prefix_entries in the object model: the list
comprehension [(k, v) for k, v in data.iteritems() if k.startswith(p)]
returns the stored objects themselves — no deepcopy (mock.py line 107). -/
def prefix_entries (h : Heap) (s : AStore) (p : String) : List (String × Nat) :=
  let _ := h
  s.filter (fun kv => startswith kv.1 p)

end MockHeap

/-- The concrete C4 scenario: the caller allocates an object holding 1
(at address 0) and stores it under key a; the store keeps a deep copy at
address 1. -/
def c4Setup : MockHeap.Heap × MockHeap.AStore :=
  let r := MockHeap.alloc ⟨0, []⟩ 1
  MockHeap.set r.1 [] "a" r.2

namespace Dal

/-!
Embedding of src/dal/base.py (class Base) and src/dal/structures.py
(class Property).  A SQLite column value is a SqlField; a table row keeps
one column value per declared property and one nullable integer per
declared relation, positionally aligned with the declaration lists (the
source addresses columns by their declared names, which are distinct —
duplicate names could not even create the table).  The json library is
abstracted: SqlField.fJson v stands for the TEXT cell json.dumps(v,
sort_keys for base.py / plain dumps), with json.loads as its inverse;
what matters to the claims — that the TEXT rendering of None is a
non-null cell, distinct from a literal SQL NULL — is preserved exactly.
-/

/-- The semantic property types supported by base.py; a property may also
be declared with property_type None (untyped), modelled by Option.none
around this type.  The str/basestring/unicode aliases collapse into
str. -/
inductive PType : Type
  | int
  | str
  | list
  | dict
  | bool
  deriving DecidableEq

/-- Property of structures.py: name, property_type, unique and mandatory
flags (defaults unique=False, mandatory=True as in Property.__init__). -/
structure PropDef : Type where
  name : String
  property_type : Option PType
  unique : Bool := false
  mandatory : Bool := true
  deriving DecidableEq

/-- One declared relation: the source represents it as a tuple
(name, remote_class); the class is modelled by its name. -/
structure RelDef : Type where
  name : String
  target : String
  deriving DecidableEq

/-- A reference to some other DAL object as seen by the relation setter:
its dynamic type name and its identifier attribute. -/
structure ObjRef : Type where
  typeName : String
  id : Option Nat
  deriving DecidableEq

/-- The per-relation cell of an instance, the dict
argument-dictionary-style pair stored under self._name (base.py lines
63-64 and 69-70): the foreign identifier and the cached object. -/
structure RelData : Type where
  id : Option Nat
  obj : Option ObjRef
  deriving DecidableEq

/-- A SQLite column value: INTEGER, plain TEXT, the TEXT json.dumps
rendering of a Python value, or NULL. -/
inductive SqlField : Type
  | fInt (i : Int)
  | fText (s : String)
  | fJson (v : PyVal)
  | fNull

/-- Python truthiness, as used by the boolean branch of Base._serialize
(1 if data else 0). -/
def pyTruthy : PyVal → Bool
  | PyVal.none => false
  | PyVal.int i => i != 0
  | PyVal.str s => s != ""
  | PyVal.bool b => b
  | PyVal.list xs => !xs.isEmpty
  | PyVal.dict kvs => !kvs.isEmpty

/-- What the sqlite3 driver stores for a Python value passed through as a
statement parameter (the int/str branches of Base._serialize return the
value itself): None binds NULL, ints and bools bind INTEGER, strings
bind TEXT, and containers are not bindable (InterfaceError). -/
def bindParam : PyVal → Except String SqlField
  | PyVal.none => Except.ok SqlField.fNull
  | PyVal.int i => Except.ok (SqlField.fInt i)
  | PyVal.bool b => Except.ok (SqlField.fInt (if b then 1 else 0))
  | PyVal.str s => Except.ok (SqlField.fText s)
  | PyVal.list _ => Except.error "InterfaceError: unsupported parameter type"
  | PyVal.dict _ => Except.error "InterfaceError: unsupported parameter type"

/-- Base._serialize (base.py lines 189-198): int/str pass the value
through to the driver; list, dict and untyped JSON-encode it; bool maps
truthiness to 1/0.  The closing ValueError branch of the source is
unreachable here because PType enumerates exactly the supported types. -/
def serialize (prop_type : Option PType) (data : PyVal) : Except String SqlField :=
  match prop_type with
  | some PType.int => bindParam data
  | some PType.str => bindParam data
  | some PType.list => Except.ok (SqlField.fJson data)
  | some PType.dict => Except.ok (SqlField.fJson data)
  | Option.none => Except.ok (SqlField.fJson data)
  | some PType.bool => Except.ok (SqlField.fInt (if pyTruthy data then 1 else 0))

/-- What Python sees when reading a column value back from sqlite3. -/
def fieldToPy : SqlField → PyVal
  | SqlField.fInt i => PyVal.int i
  | SqlField.fText s => PyVal.str s
  | SqlField.fJson v => PyVal.str (pyDumps v)
  | SqlField.fNull => PyVal.none

/-- Base._deserialize (base.py lines 178-187): int/str return the column
value as is; list, dict and untyped run json.loads unless the cell is
NULL (which passes through as None); bool compares the cell with 1.  For
the json types, a cell that is not a json.dumps rendering and not NULL
cannot have been written by save and is mapped to an error. -/
def deserialize (prop_type : Option PType) (data : SqlField) : Except String PyVal :=
  match prop_type with
  | some PType.int => Except.ok (fieldToPy data)
  | some PType.str => Except.ok (fieldToPy data)
  | some PType.list | some PType.dict | Option.none =>
    match data with
    | SqlField.fNull => Except.ok PyVal.none
    | SqlField.fJson v => Except.ok v
    | SqlField.fText _ => Except.error "json.loads: cell not written by the serializer"
    | SqlField.fInt _ => Except.error "json.loads: cell not written by the serializer"
  | some PType.bool =>
    Except.ok (PyVal.bool (match data with
      | SqlField.fInt i => i == 1
      | _ => false))

/-- Base._get_prop_type (base.py lines 169-176): int/bool map to INTEGER,
str/list/dict/None to TEXT; the ValueError branch is unreachable here
because PType enumerates exactly the supported types. -/
def get_prop_type : Option PType → String
  | some PType.int => "INTEGER"
  | some PType.bool => "INTEGER"
  | some PType.str => "TEXT"
  | some PType.list => "TEXT"
  | some PType.dict => "TEXT"
  | Option.none => "TEXT"

end Dal

namespace Dal

/-- The entity type: backing table name and the declared property and
relation lists (class attributes _table, _properties, _relations of a
Base subclass). -/
structure EntityDef : Type where
  table : String
  props : List PropDef
  rels : List RelDef

/-- An entity instance: the identifier, one value per declared property
(the attributes set through setattr, positionally aligned with
EntityDef.props) and one relation cell per declared relation (aligned
with EntityDef.rels). -/
structure Instance : Type where
  id : Option Nat
  vals : List PyVal
  relData : List RelData

/-- A table row: the AUTOINCREMENT primary key, one cell per declared
property and one nullable foreign identifier per declared relation, in
declaration order. -/
structure Row : Type where
  id : Nat
  propVals : List SqlField
  relIds : List (Option Nat)

/-- The backing table: the next AUTOINCREMENT identifier and the rows.
SQLite assigns identifiers from 1. -/
structure Table : Type where
  nextId : Nat
  rows : List Row

/-- Error-propagating loop over a list: the embedding of the Python for
loops that serialize or deserialize one property after the other and let
the first exception propagate. -/
def mapE {α β : Type} (f : α → Except String β) : List α → Except String (List β)
  | [] => Except.ok []
  | a :: rest =>
    match f a with
    | Except.error e => Except.error e
    | Except.ok b =>
      match mapE f rest with
      | Except.error e => Except.error e
      | Except.ok bs => Except.ok (b :: bs)

/-- Recognizes the value None. -/
def isNoneVal : PyVal → Bool
  | PyVal.none => true
  | _ => false

/-- Recognizes a NULL cell. -/
def isNullField : SqlField → Bool
  | SqlField.fNull => true
  | _ => false

/-- The value save computes for one property (base.py lines 139-143): a
None value of an untyped mandatory property becomes a literal NULL —
the source comments that it would otherwise be JSON serialized to the
text null, bypassing the mandatory constraint — and every other value
goes through Base._serialize. -/
def propValue (p : PropDef) (v : PyVal) : Except String SqlField :=
  if p.property_type = Option.none && p.mandatory && isNoneVal v then Except.ok SqlField.fNull
  else serialize p.property_type v

/-- The prop_values list save builds over the declared properties. -/
def serializeProps (props : List PropDef) (vals : List PyVal) : Except String (List SqlField) :=
  mapE (fun pv => propValue pv.1 pv.2) (props.zip vals)

/-- SQLite NOT NULL enforcement on insert/update: a mandatory property
column receiving NULL violates its constraint. -/
def notNullViolation (props : List PropDef) (fields : List SqlField) : Bool :=
  (props.zip fields).any (fun pf => pf.1.mandatory && isNullField pf.2)

/-- Base.save (base.py lines 133-159): serializes the properties (with
the mandatory-untyped-None special case), appends the relation foreign
identifiers, then inserts a fresh row and captures the generated
identifier when id is None, or updates the row with the current
identifier.  The SQLite layer raises IntegrityError when a NOT NULL
column receives NULL. -/
def save (ent : EntityDef) (tbl : Table) (inst : Instance) : Except PyErr (Table × Instance) :=
  match serializeProps ent.props inst.vals with
  | Except.error m => Except.error (PyErr.valueError m)
  | Except.ok pvals =>
    let rvals := inst.relData.map (fun d => d.id)
    if notNullViolation ent.props pvals then
      Except.error (PyErr.integrityError "NOT NULL constraint failed")
    else
      match inst.id with
      | Option.none =>
        Except.ok (⟨tbl.nextId + 1, tbl.rows ++ [⟨tbl.nextId, pvals, rvals⟩]⟩,
                   ⟨some tbl.nextId, inst.vals, inst.relData⟩)
      | some i =>
        Except.ok (⟨tbl.nextId,
                    tbl.rows.map (fun r => if r.id = i then ⟨i, pvals, rvals⟩ else r)⟩,
                   inst)

/-- The identifier branch of Base.__init__ (base.py lines 54-64):
fetches the row with the given identifier, raising
ObjectNotFoundException when there is none, deserializes every declared
property from its column, and fills every relation cell with the stored
foreign identifier and no cached object. -/
def load (ent : EntityDef) (tbl : Table) (ident : Nat) : Except PyErr Instance :=
  match tbl.rows.find? (fun r => r.id == ident) with
  | Option.none => Except.error PyErr.objectNotFound
  | some row =>
    match mapE (fun pf => deserialize pf.1.property_type pf.2) (ent.props.zip row.propVals) with
    | Except.error m => Except.error (PyErr.valueError m)
    | Except.ok vs => Except.ok ⟨some ident, vs, row.relIds.map (fun i => ⟨i, Option.none⟩)⟩

/-- The no-identifier branch of Base.__init__ (base.py lines 65-70):
every property starts as None and every relation cell empty. -/
def newInstance (ent : EntityDef) : Instance :=
  ⟨Option.none, ent.props.map (fun _ => PyVal.none), ent.rels.map (fun _ => ⟨Option.none, Option.none⟩)⟩

/-- Base._set_relation (base.py lines 119-127): None clears both the
foreign identifier and the cached object; any other value has its id
attribute copied and itself cached.  The relation argument is only used
by the source to locate the cell, which is passed directly here; note
the value's type is never compared with the relation's declared target
class. -/
def set_relation (relation : RelDef) (value : Option ObjRef) (data : RelData) : RelData :=
  let _ := relation
  let _ := data
  match value with
  | Option.none => ⟨Option.none, Option.none⟩
  | some v => ⟨v.id, some v⟩

end Dal

namespace Dal

/-- Parses scanned digit characters into a positional field index. -/
def digitsToNat (ds : List Char) : Nat :=
  ds.foldl (fun acc c => acc * 10 + (c.toNat - 48)) 0

/-- Python str.format scanning, restricted to the numbered fields the
source uses: a doubled brace is a literal brace; an opening brace starts
a replacement field — digits, then a closing brace — replaced by the
corresponding positional argument; a closing brace outside a field must
be doubled, a single one raises ValueError.  The fuel argument is the
remaining character count plus one, so it never runs out. -/
def pyFormatGo (args : List String) : Nat → List Char → Except String String
  | 0, _ => Except.error "out of fuel"
  | _ + 1, [] => Except.ok ""
  | fuel + 1, c :: rest =>
    if c = '\x7b' then
      match rest with
      | '\x7b' :: rest2 =>
        match pyFormatGo args fuel rest2 with
        | Except.ok s => Except.ok ("\x7b" ++ s)
        | Except.error e => Except.error e
      | _ =>
        match rest.dropWhile (fun d => d.isDigit) with
        | '\x7d' :: rest2 =>
          match pyFormatGo args fuel rest2 with
          | Except.ok s =>
            Except.ok (args.getD (digitsToNat (rest.takeWhile (fun d => d.isDigit))) "" ++ s)
          | Except.error e => Except.error e
        | _ => Except.error "ValueError: expected closing brace in format string"
    else if c = '\x7d' then
      match rest with
      | '\x7d' :: rest2 =>
        match pyFormatGo args fuel rest2 with
        | Except.ok s => Except.ok ("\x7d" ++ s)
        | Except.error e => Except.error e
      | _ => Except.error "ValueError: Single closing brace encountered in format string"
    else
      match pyFormatGo args fuel rest with
      | Except.ok s => Except.ok (String.singleton c ++ s)
      | Except.error e => Except.error e

/-- Python str.format with positional arguments. -/
def pyFormat (template : String) (args : List String) : Except String String :=
  pyFormatGo args (template.toList.length + 1) template.toList

/-- The format template of the additive column migration, base.py line
224, verbatim: ALTER TABLE, five numbered fields, and — the slip the C3
analysis is about — a stray second closing brace at the very end. -/
def alterColumnTemplate : String :=
  "ALTER TABLE \x7b0\x7d ADD COLUMN \x7b1\x7d \x7b2\x7d \x7b3\x7d \x7b4\x7d\x7d"

/-- The property half of the migration loop of Base._ensure_table
(base.py lines 222-228): for every declared property whose column the
introspected table misses, build the ALTER TABLE statement from the line
224 template, with the NOT NULL / UNIQUE modifiers mirroring the
mandatory / unique flags; the first formatting error propagates, as the
ValueError of str.format would. -/
def ensurePropertyColumns (table : String) (current_properties : List String)
    (props : List PropDef) : Except String (List String) :=
  mapE
    (fun p => pyFormat alterColumnTemplate
      [table, p.name, get_prop_type p.property_type,
       if p.mandatory then "NOT NULL" else "",
       if p.unique then "UNIQUE" else ""])
    (props.filter (fun p => !current_properties.contains p.name))

end Dal

/-- Pre-transaction store of the C1 scenario: cluster c holds B = "y" and
no key A; the cluster is initialized in both registries. -/
def c1Store : Mock.MockState :=
  ⟨[("c", [("B", PyVal.str "y")])], [("c", [])]⟩

/-- The buffered operation list of the C1 scenario:
[set(A, 1), assert_value(B, "x"), set(A, 2)]. -/
def c1Ops : List Mock.TxOp :=
  [Mock.TxOp.set "A" (PyVal.int 1),
   Mock.TxOp.assertValue "B" (PyVal.str "x"),
   Mock.TxOp.set "A" (PyVal.int 2)]

/-- The entity of the C6 witness: one optional string property. -/
def entC6 : Dal.EntityDef := ⟨"disks", [⟨"name", some Dal.PType.str, false, false⟩], []⟩

/-- The entity of the C7 witness: one untyped mandatory property. -/
def entC7 : Dal.EntityDef := ⟨"tokens", [⟨"payload", Option.none, false, true⟩], []⟩

/-- The validity notion of the round-trip claim: a value matches its
declared semantic type (int, string, list, dict, bool), and an untyped
property accepts any value. -/
def Dal.validFor : Option Dal.PType → PyVal → Bool
  | some Dal.PType.int, PyVal.int _ => true
  | some Dal.PType.str, PyVal.str _ => true
  | some Dal.PType.list, PyVal.list _ => true
  | some Dal.PType.dict, PyVal.dict _ => true
  | some Dal.PType.bool, PyVal.bool _ => true
  | Option.none, _ => true
  | _, _ => false

/-- The entity of the C5 witness: one property per semantic type, plus an
untyped one, plus a relation. -/
def entC5 : Dal.EntityDef :=
  ⟨"machines",
   [⟨"count", some Dal.PType.int, false, false⟩,
    ⟨"name", some Dal.PType.str, false, true⟩,
    ⟨"flag", some Dal.PType.bool, false, false⟩,
    ⟨"parts", some Dal.PType.list, false, false⟩,
    ⟨"meta", some Dal.PType.dict, false, false⟩,
    ⟨"blob", Option.none, false, false⟩],
   [⟨"disk", "Disk"⟩]⟩

/-- The instance of the C5 witness, with a value of each semantic type
and a set relation identifier. -/
def instC5 : Dal.Instance :=
  ⟨Option.none,
   [PyVal.int 5, PyVal.str "m1", PyVal.bool true,
    PyVal.list [PyVal.int 1, PyVal.str "x"],
    PyVal.dict [("k", PyVal.str "v")],
    PyVal.none],
   [⟨some 3, Option.none⟩]⟩

/-- The table the C5 witness save produces. -/
def tblC5b : Dal.Table :=
  ⟨2, [⟨1,
    [Dal.SqlField.fInt 5, Dal.SqlField.fText "m1", Dal.SqlField.fInt 1,
     Dal.SqlField.fJson (PyVal.list [PyVal.int 1, PyVal.str "x"]),
     Dal.SqlField.fJson (PyVal.dict [("k", PyVal.str "v")]),
     Dal.SqlField.fJson PyVal.none],
    [some 3]⟩]⟩

/-! Basic lemmas about the association-list dictionary operations. -/

theorem alookup_aset_self {α : Type} (m : List (String × α)) (k : String) (v : α) :
    alookup (aset m k v) k = some v := by
  induction m with
  | nil => simp [aset, alookup]
  | cons p rest ih =>
    by_cases h : p.1 = k
    · simp [aset, h, alookup]
    · simp [aset, h, alookup, ih]

theorem alookup_aset_ne {α : Type} (m : List (String × α)) (k k2 : String) (v : α)
    (h : k ≠ k2) : alookup (aset m k v) k2 = alookup m k2 := by
  induction m with
  | nil => simp [aset, alookup, h]
  | cons p rest ih =>
    by_cases hp : p.1 = k
    · simp [aset, hp, alookup, h]
    · simp [aset, hp, alookup, ih]

theorem mem_keys_aset {α : Type} (m : List (String × α)) (k : String) (v : α) :
    k ∈ (aset m k v).map Prod.fst := by
  induction m with
  | nil => simp [aset]
  | cons p rest ih =>
    by_cases hp : p.1 = k
    · simp [aset, hp]
    · simp [aset, hp]
      right
      simpa using ih

theorem startswith_refl (s : String) : startswith s s = true := by
  simp [startswith, List.isPrefixOf_iff_prefix]

namespace Mock

theorem read_write (st : MockState) (c : String) (d : List (String × PyVal)) :
    read (write st c d) c = d := by
  simp [read, write, alookup_aset_self]

/-- After init, the cluster is registered in the data registry. -/
theorem init_data_isSome (st : MockState) (c : String) :
    (alookup (init st c).data c).isSome := by
  unfold init
  by_cases h1 : (alookup st.sequences c).isSome
  · by_cases h2 : (alookup st.data c).isSome
    · simp [h1, h2]
    · simp [h1, h2, alookup_aset_self]
  · by_cases h2 : (alookup st.data c).isSome
    · simp [h1, h2]
    · simp [h1, h2, alookup_aset_self]

/-- After init, the cluster is registered in the sequence registry. -/
theorem init_sequences_isSome (st : MockState) (c : String) :
    (alookup (init st c).sequences c).isSome := by
  unfold init
  by_cases h1 : (alookup st.sequences c).isSome
  · by_cases h2 : (alookup st.data c).isSome <;> simp [h1, h2]
  · by_cases h2 : (alookup st.data c).isSome <;> simp [h1, h2, alookup_aset_self]

/-- Init leaves the data registry untouched when the cluster already has
a data mapping (mock.py line 47: only an absent cluster is initialized). -/
theorem init_data_preserved (st : MockState) (c : String)
    (h : (alookup st.data c).isSome) : (init st c).data = st.data := by
  unfold init
  by_cases h1 : (alookup st.sequences c).isSome <;> simp [h1, h]

end Mock

/-- When both registries already carry the cluster, init is the identity
(no existing state is ever clobbered by constructing another client). -/
theorem Mock.init_id (st : Mock.MockState) (c : String)
    (h1 : (alookup st.sequences c).isSome) (h2 : (alookup st.data c).isSome) :
    Mock.init st c = st := by
  unfold Mock.init
  simp [h1, h2]

/-- Claim C10: the mock store state is process-wide and keyed by cluster
name, not per client instance.  A client object holds nothing beyond its
cluster string, so two clients constructed with the same cluster name are
two uses of the same cluster key: after one client (first init) sets a
key, constructing a further client for the same cluster (second init)
changes nothing, and get, existsKey and the prefix scan through that
second client observe the written value. -/
theorem C10_cluster_shared_state (st : Mock.MockState) (c k : String) (v : PyVal) :
    Mock.set (Mock.init st c) c k v Option.none
      = Except.ok (Mock.write (Mock.init st c) c (aset (Mock.read (Mock.init st c) c) k v)) ∧
    Mock.init (Mock.write (Mock.init st c) c (aset (Mock.read (Mock.init st c) c) k v)) c
      = Mock.write (Mock.init st c) c (aset (Mock.read (Mock.init st c) c) k v) ∧
    Mock.get (Mock.init (Mock.write (Mock.init st c) c
        (aset (Mock.read (Mock.init st c) c) k v)) c) c k = Except.ok v ∧
    Mock.existsKey (Mock.init (Mock.write (Mock.init st c) c
        (aset (Mock.read (Mock.init st c) c) k v)) c) c k = true ∧
    k ∈ Mock.prefix_keys (Mock.init (Mock.write (Mock.init st c) c
        (aset (Mock.read (Mock.init st c) c) k v)) c) c k := by
  have hinit : Mock.init (Mock.write (Mock.init st c) c
      (aset (Mock.read (Mock.init st c) c) k v)) c
      = Mock.write (Mock.init st c) c (aset (Mock.read (Mock.init st c) c) k v) := by
    apply Mock.init_id
    · exact Mock.init_sequences_isSome st c
    · simp [Mock.write, alookup_aset_self]
  have hget : Mock.get (Mock.write (Mock.init st c) c
      (aset (Mock.read (Mock.init st c) c) k v)) c k = Except.ok v := by
    simp [Mock.get, Mock.read_write, alookup_aset_self]
  refine ⟨rfl, hinit, ?_, ?_, ?_⟩
  · rw [hinit]; exact hget
  · rw [hinit]; simp [Mock.existsKey, hget]
  · rw [hinit]
    simp only [Mock.prefix_keys, Mock.read_write, List.mem_filter]
    exact ⟨mem_keys_aset _ k v, startswith_refl k⟩

/-- The generator of get_multi yields, in input order, the stored value of
every key up to the first absent one, and raises ArakoonNotFound for that
first absent key; keys beyond it are never read. -/
theorem Mock.get_multi_go_spec (data : List (String × PyVal)) (keys : List String) :
    Mock.get_multi_go data keys =
      ((keys.takeWhile (fun k => (alookup data k).isSome)).filterMap (fun k => alookup data k),
       ((keys.dropWhile (fun k => (alookup data k).isSome)).head?).map PyErr.notFound) := by
  induction keys with
  | nil => simp [Mock.get_multi_go]
  | cons k rest ih =>
    cases h : alookup data k with
    | none => simp [Mock.get_multi_go, h, List.takeWhile_cons, List.dropWhile_cons]
    | some v => simp [Mock.get_multi_go, h, List.takeWhile_cons, List.dropWhile_cons, ih]

/-- Claim C9, counterexample: with must_exist = false, get_multi on a
store without the requested key still raises ArakoonNotFound — the claim
says an absent key must not raise in that case.  Here a fresh client of
cluster c requests the single absent key k with must_exist false, yields
nothing, and raises. -/
theorem C9_counterexample :
    Mock.get_multi (Mock.init ⟨[], []⟩ "c") "c" ["k"] false
      = ([], some (PyErr.notFound "k")) := by rfl

/-- Claim C9, amended: get_multi produces a single-pass, finite, in-order
sequence of the stored values (deep copies) of the requested keys, and
raises ArakoonNotFound at the point the first absent key is reached —
regardless of must_exist, which the source discards (mock.py line 74);
values yielded before the failure are not retracted. -/
theorem C9_amended_get_multi (st : Mock.MockState) (c : String)
    (keys : List String) (must_exist : Bool) :
    Mock.get_multi st c keys must_exist = Mock.get_multi st c keys true ∧
    Mock.get_multi st c keys must_exist =
      ((keys.takeWhile (fun k => (alookup (Mock.read st c) k).isSome)).filterMap
          (fun k => alookup (Mock.read st c) k),
       ((keys.dropWhile (fun k => (alookup (Mock.read st c) k).isSome)).head?).map
          PyErr.notFound) :=
  ⟨rfl, Mock.get_multi_go_spec (Mock.read st c) keys⟩

/-- Claim C1, counterexample: committing the buffered operations
[set(A, 1), assert_value(B, "x"), set(A, 2)] against a store where A is
absent and B holds "y" does raise the not-found error, but key A does
not retain its pre-transaction state: the first set was already applied
when the assertion failed and is not rolled back, so get(A) afterwards
returns 1 instead of raising. -/
theorem C1_counterexample :
    (Mock.runOps c1Store "c" c1Ops).2 = some (PyErr.notFound "B") ∧
    Mock.get (Mock.runOps c1Store "c" c1Ops).1 "c" "A" = Except.ok (PyVal.int 1) := by
  constructor <;> rfl

/-- Claim C1, amended: for a transaction whose buffered operations are
[set(A, 1), assert_value(B, "x"), set(A, 2)], if at commit time B does
not hold "x", the commit loop propagates the not-found error and the
remaining buffered operations are aborted (set(A, 2) is not applied),
but the operations already executed are not rolled back: afterwards
get(A) returns 1, the value written by the first set. -/
theorem C1_amended_no_rollback (st : Mock.MockState) (c A B : String) (w : PyVal)
    (hAB : A ≠ B)
    (_hA : alookup (Mock.read st c) A = Option.none)
    (hB : alookup (Mock.read st c) B = some w)
    (hw : pyDumps w ≠ pyDumps (PyVal.str "x")) :
    (Mock.runOps st c
        [Mock.TxOp.set A (PyVal.int 1), Mock.TxOp.assertValue B (PyVal.str "x"),
         Mock.TxOp.set A (PyVal.int 2)]).2 = some (PyErr.notFound B) ∧
    Mock.get (Mock.runOps st c
        [Mock.TxOp.set A (PyVal.int 1), Mock.TxOp.assertValue B (PyVal.str "x"),
         Mock.TxOp.set A (PyVal.int 2)]).1 c A = Except.ok (PyVal.int 1) := by
  have hrun : Mock.runOps st c
      [Mock.TxOp.set A (PyVal.int 1), Mock.TxOp.assertValue B (PyVal.str "x"),
       Mock.TxOp.set A (PyVal.int 2)]
      = (Mock.write st c (aset (Mock.read st c) A (PyVal.int 1)),
         some (PyErr.notFound B)) := by
    simp only [Mock.runOps, Mock.execOp, Mock.set, Mock.assertValue,
      Mock.read_write, alookup_aset_ne _ _ _ _ hAB, hB]
    rw [if_pos hw]
  rw [hrun]
  refine ⟨rfl, ?_⟩
  simp [Mock.get, Mock.read_write, alookup_aset_self]

/-- Witness for C1_amended_no_rollback at the concrete scenario of the
claim (A absent, B = "y"). -/
theorem C1_amended_witness :
    (Mock.runOps c1Store "c"
        [Mock.TxOp.set "A" (PyVal.int 1), Mock.TxOp.assertValue "B" (PyVal.str "x"),
         Mock.TxOp.set "A" (PyVal.int 2)]).2 = some (PyErr.notFound "B") ∧
    Mock.get (Mock.runOps c1Store "c"
        [Mock.TxOp.set "A" (PyVal.int 1), Mock.TxOp.assertValue "B" (PyVal.str "x"),
         Mock.TxOp.set "A" (PyVal.int 2)]).1 "c" "A" = Except.ok (PyVal.int 1) :=
  C1_amended_no_rollback c1Store "c" "A" "B" (PyVal.str "y")
    (by decide) rfl rfl (by decide)

/-- Claim C2 (code bug): begin_transaction registers the fresh operation
list under _sequences[cluster][handle] (mock.py line 181), but the
transaction branches of set / delete / assert_value / assert_exists and
apply_transaction all index _sequences[handle] at the top level of the
registry, which is keyed by cluster name (lines 45-46).  So for any
handle that is not itself a registered cluster name, every attempt to
buffer an operation — and the commit itself — raises KeyError instead of
buffering; and delete_prefix never buffers at all: it discards its
transaction argument (line 128) and mutates the live mapping at once. -/
theorem C2_buffering_keyerror (st : Mock.MockState) (c t k p : String) (v : PyVal)
    (hfresh : alookup (Mock.init st c).sequences t = Option.none) :
    ∀ st1 h, Mock.begin_transaction (Mock.init st c) c t = Except.ok (st1, h) →
      alookup ((alookup st1.sequences c).getD []) t = some [] ∧
      Mock.set st1 c k v (some t) = Except.error (PyErr.keyError t) ∧
      Mock.delete st1 c k true (some t) = Except.error (PyErr.keyError t) ∧
      Mock.assertValue st1 c k v (some t) = Except.error (PyErr.keyError t) ∧
      Mock.assertExists st1 c k (some t) = Except.error (PyErr.keyError t) ∧
      (Mock.apply_transaction st1 c t).2 = some (PyErr.keyError t) ∧
      Mock.delete_pfx st1 c p (some t) = Mock.delete_pfx st1 c p Option.none := by
  intro st1 h hbt
  obtain ⟨seqMap, hseq⟩ : ∃ m, alookup (Mock.init st c).sequences c = some m := by
    have := Mock.init_sequences_isSome st c
    cases hm : alookup (Mock.init st c).sequences c with
    | none => rw [hm] at this; simp at this
    | some m => exact ⟨m, rfl⟩
  have htc : t ≠ c := by
    intro he
    rw [he, hseq] at hfresh
    exact Option.noConfusion hfresh
  unfold Mock.begin_transaction at hbt
  rw [hseq] at hbt
  have hst1 : st1 = { Mock.init st c with
      sequences := aset (Mock.init st c).sequences c (aset seqMap t []) } := by
    cases hbt
    rfl
  have hs1t : alookup st1.sequences t = Option.none := by
    rw [hst1]
    simpa [alookup_aset_ne _ c t _ (Ne.symm htc)] using hfresh
  have hbuf : Mock.bufferOp st1 t = Except.error (PyErr.keyError t) := by
    unfold Mock.bufferOp
    rw [hs1t]
  refine ⟨?_, hbuf, hbuf, hbuf, hbuf, ?_, rfl⟩
  · rw [hst1]
    simp [alookup_aset_self, alookup_aset_self seqMap t ([] : List Mock.TxOp)]
  · unfold Mock.apply_transaction
    rw [hs1t]

/-- Witness for C2_buffering_keyerror on a fresh process: cluster c is
initialized, a transaction t is begun, and the buffered set raises
KeyError(t). -/
theorem C2_witness :
    Mock.set ⟨[("c", [])], [("c", [("t", [])])]⟩ "c" "k" PyVal.none (some "t")
      = Except.error (PyErr.keyError "t") :=
  (C2_buffering_keyerror ⟨[], []⟩ "c" "t" "k" "p" PyVal.none rfl
    ⟨[("c", [])], [("c", [("t", [])])]⟩ "t" rfl).2.1

/-- Claim C4, counterexample: prefix_entries does not deep-copy.  After
storing an object holding 1 under key a (the store keeps its copy at
address 1), prefix_entries returns that stored address itself; the
caller mutating the returned object to 2 changes what a later get
observes (2 instead of the stored 1) — so a mutable structure is shared
across the store boundary, contradicting the claim that every value
crossing it is deep-copied. -/
theorem C4_counterexample :
    MockHeap.prefix_entries c4Setup.1 c4Setup.2 "" = [("a", 1)] ∧
    (MockHeap.get c4Setup.1 c4Setup.2 "a").map
        (fun r => MockHeap.readCell r.1 r.2) = Except.ok 1 ∧
    (MockHeap.get (MockHeap.writeCell c4Setup.1 1 2) c4Setup.2 "a").map
        (fun r => MockHeap.readCell r.1 r.2) = Except.ok 2 :=
  ⟨rfl, rfl, rfl⟩

/-- A heap extended by an allocation still bounds every store address. -/
theorem MockHeap.wf_step (h : MockHeap.Heap) (s : MockHeap.AStore) (x : Int)
    (hwf : ∀ b ∈ s.map Prod.snd, b < h.next) :
    ∀ b ∈ s.map Prod.snd, b < ((MockHeap.alloc h x).1).next := by
  intro b hb
  have := hwf b hb
  simp only [MockHeap.alloc]
  omega

/-- Every address yielded by the get_multi generator is fresh: distinct
from every address the store holds. -/
theorem MockHeap.get_multi_go_fresh (s : MockHeap.AStore) (keys : List String) :
    ∀ h : MockHeap.Heap, (∀ b ∈ s.map Prod.snd, b < h.next) →
      ∀ a2 ∈ (MockHeap.get_multi_go s h keys).2.1, ∀ b ∈ s.map Prod.snd, a2 ≠ b := by
  induction keys with
  | nil => intro h hwf a2 ha2; simp [MockHeap.get_multi_go] at ha2
  | cons k rest ih =>
    intro h hwf a2 ha2 b hb
    cases hk : alookup s k with
    | none => simp [MockHeap.get_multi_go, hk] at ha2
    | some a =>
      simp only [MockHeap.get_multi_go, hk, List.mem_cons] at ha2
      rcases ha2 with rfl | ha2
      · have := hwf b hb
        simp only [MockHeap.deepcopy, MockHeap.alloc]
        omega
      · exact ih _ (MockHeap.wf_step h s _ hwf) a2 ha2 b hb

/-- Claim C4, amended: get and get_multi return deep copies (fresh
objects, never an address the store holds) and set stores a deep copy
(never the caller's address); but prefix_entries returns the stored
objects themselves, without copying — mutating an entry it returns
mutates the store's own object, so a later read observes the change. -/
theorem C4_amended_deep_copies (h : MockHeap.Heap) (s : MockHeap.AStore)
    (k p : String) (a : Nat) (keys : List String) (me : Bool)
    (hwf : ∀ b ∈ s.map Prod.snd, b < h.next) (ha : a < h.next) :
    (∀ h2 a2, MockHeap.get h s k = Except.ok (h2, a2) → ∀ b ∈ s.map Prod.snd, a2 ≠ b) ∧
    ((MockHeap.set h s k a).2 = aset s k h.next ∧ h.next ≠ a) ∧
    (∀ a2 ∈ (MockHeap.get_multi h s keys me).2.1, ∀ b ∈ s.map Prod.snd, a2 ≠ b) ∧
    (∀ e ∈ MockHeap.prefix_entries h s p, e.2 ∈ s.map Prod.snd) := by
  refine ⟨?_, ⟨rfl, by omega⟩, ?_, ?_⟩
  · intro h2 a2 hget b hb
    unfold MockHeap.get at hget
    cases hk : alookup s k with
    | none => rw [hk] at hget; exact Except.noConfusion hget
    | some a3 =>
      rw [hk] at hget
      have ha2 : h.next = a2 := by
        have := congrArg (fun r => match r with
          | Except.ok (p : MockHeap.Heap × Nat) => p.2
          | Except.error _ => 0) hget
        simpa [MockHeap.deepcopy, MockHeap.alloc] using this
      have := hwf b hb
      omega
  · exact MockHeap.get_multi_go_fresh s keys h hwf
  · intro e he
    simp only [MockHeap.prefix_entries, List.mem_filter] at he
    exact List.mem_map_of_mem Prod.snd he.1

/-- Witness for C4_amended_deep_copies at the concrete store of the C4
scenario (store address 1, heap bound 2, caller object at address 0). -/
theorem C4_amended_witness :
    (MockHeap.set c4Setup.1 c4Setup.2 "a" 0).2 = aset c4Setup.2 "a" 2 ∧ (2 : Nat) ≠ 0 :=
  (C4_amended_deep_copies c4Setup.1 c4Setup.2 "a" "" 0 ["a"] false
    (by decide) (by decide)).2.1

/-- Claim C8, counterexample: the relation setter performs no type check.
For a relation declared with target type Disk, assigning a persisted
object of type Role is accepted without error: its identifier is copied
into the cell and the object itself cached, where the claim says a
wrong-target-type assignment must fail with a ValueError-class error. -/
theorem C8_counterexample :
    Dal.set_relation ⟨"disk", "Disk"⟩ (some ⟨"Role", some 7⟩) ⟨Option.none, Option.none⟩
      = ⟨some 7, some ⟨"Role", some 7⟩⟩ := rfl

/-- Claim C8, amended: the relation setter accepts exactly two shapes of
value — None, which clears both the stored foreign identifier and the
cached object, and any object whatsoever, whose id attribute is copied
and whose reference is cached; no check against the relation's declared
target type (nor of persistence) is performed, so no assignment ever
raises. -/
theorem C8_amended_set_relation (rel : Dal.RelDef) (d : Dal.RelData) :
    Dal.set_relation rel Option.none d = ⟨Option.none, Option.none⟩ ∧
    ∀ o : Dal.ObjRef, Dal.set_relation rel (some o) d = ⟨o.id, some o⟩ :=
  ⟨rfl, fun _ => rfl⟩

/-- Claim C3 (code bug): the additive migration never succeeds.  For a
table whose columns are id and name while the entity declares properties
name and size, the size column is detected as missing, but building its
ALTER TABLE statement from the line 224 template raises ValueError — the
template ends in a single, unescaped closing brace — so constructing an
instance raises instead of adding the column; with no column missing the
loop builds nothing and no error occurs. -/
theorem C3_migration_format_error :
    Dal.ensurePropertyColumns "disks" ["id", "name"]
      [⟨"name", some Dal.PType.str, false, false⟩, ⟨"size", some Dal.PType.int, false, false⟩]
      = Except.error "ValueError: Single closing brace encountered in format string" ∧
    Dal.ensurePropertyColumns "disks" ["id", "name", "size"]
      [⟨"name", some Dal.PType.str, false, false⟩, ⟨"size", some Dal.PType.int, false, false⟩]
      = Except.ok [] :=
  ⟨rfl, rfl⟩

/-- Claim C6: saving an instance with id = None inserts a fresh row and
assigns the generated identifier (the table's next AUTOINCREMENT value,
never None); any save of an instance holding an identifier keeps that
identifier, performs an update — the row count does not change and every
row with a different identifier is untouched — and never inserts. -/
theorem C6_insert_then_update (ent : Dal.EntityDef) (tbl : Dal.Table) (inst : Dal.Instance)
    (tbl2 : Dal.Table) (inst2 : Dal.Instance)
    (hid : inst.id = Option.none)
    (hok : Dal.save ent tbl inst = Except.ok (tbl2, inst2)) :
    inst2.id = some tbl.nextId ∧
    tbl2.rows.length = tbl.rows.length + 1 ∧
    (∀ tb ins tb2 ins2 i, ins.id = some i →
      Dal.save ent tb ins = Except.ok (tb2, ins2) →
      ins2.id = some i ∧ tb2.rows.length = tb.rows.length ∧
      ∀ r ∈ tb.rows, r.id ≠ i → r ∈ tb2.rows) := by
  have hmain : inst2.id = some tbl.nextId ∧ tbl2.rows.length = tbl.rows.length + 1 := by
    cases hser : Dal.serializeProps ent.props inst.vals with
    | error m =>
      simp only [Dal.save, hser] at hok
      exact Except.noConfusion hok
    | ok pvals =>
      simp only [Dal.save, hser] at hok
      by_cases hnn : Dal.notNullViolation ent.props pvals = true
      · rw [if_pos hnn] at hok
        exact Except.noConfusion hok
      · rw [if_neg hnn] at hok
        simp only [hid] at hok
        cases hok
        exact ⟨rfl, by simp⟩
  refine ⟨hmain.1, hmain.2, ?_⟩
  intro tb ins tb2 ins2 i hins hok2
  cases hser : Dal.serializeProps ent.props ins.vals with
  | error m =>
    simp only [Dal.save, hser] at hok2
    exact Except.noConfusion hok2
  | ok pvals =>
    simp only [Dal.save, hser] at hok2
    by_cases hnn : Dal.notNullViolation ent.props pvals = true
    · rw [if_pos hnn] at hok2
      exact Except.noConfusion hok2
    · rw [if_neg hnn] at hok2
      simp only [hins] at hok2
      cases hok2
      refine ⟨hins, by simp, ?_⟩
      intro r hr hne
      exact List.mem_map.mpr ⟨r, hr, by simp [hne]⟩

/-- Positional access through a zip is positional access through both
lists. -/
theorem getElem?_zip_iff {α β : Type} (l1 : List α) (l2 : List β) (i : Nat) (a : α) (b : β) :
    (l1.zip l2)[i]? = some (a, b) ↔ l1[i]? = some a ∧ l2[i]? = some b := by
  induction l1 generalizing l2 i with
  | nil => simp
  | cons x r1 ih =>
    cases l2 with
    | nil => simp
    | cons y r2 =>
      cases i with
      | zero => simp [Prod.ext_iff]
      | succ n => simpa [List.zip_cons_cons] using ih r2 n

/-- The error-propagating loop preserves positions: when it succeeds, the
output at a position is the image of the input at that position. -/
theorem Dal.mapE_get {α β : Type} (f : α → Except String β) (l : List α) (l2 : List β)
    (h : Dal.mapE f l = Except.ok l2) (i : Nat) (a : α) (ha : l[i]? = some a) :
    ∃ b, l2[i]? = some b ∧ f a = Except.ok b := by
  induction l generalizing l2 i with
  | nil => simp at ha
  | cons x r ih =>
    simp only [Dal.mapE] at h
    cases hf : f x with
    | error e => rw [hf] at h; exact Except.noConfusion h
    | ok b0 =>
      rw [hf] at h
      cases hr : Dal.mapE f r with
      | error e => rw [hr] at h; exact Except.noConfusion h
      | ok bs =>
        rw [hr] at h
        cases h
        cases i with
        | zero =>
          rw [List.getElem?_cons_zero, Option.some_inj] at ha
          subst ha
          exact ⟨b0, by simp, hf⟩
        | succ n =>
          rw [List.getElem?_cons_succ] at ha
          obtain ⟨b, hb, hfb⟩ := ih bs hr n ha
          exact ⟨b, by simpa using hb, hfb⟩

/-- Claim C7: when an untyped mandatory property holds None, save
serializes it to a literal NULL (base.py lines 140-141), not to the JSON
text null that plain serialization of None would yield — the two cells
are distinct — and the insert then fails with the storage-level NOT NULL
constraint violation instead of silently persisting a placeholder. -/
theorem C7_mandatory_untyped_null (ent : Dal.EntityDef) (tbl : Dal.Table)
    (inst : Dal.Instance) (i : Nat) (p : Dal.PropDef) (pvals : List Dal.SqlField)
    (hp : (ent.props.zip inst.vals)[i]? = some (p, PyVal.none))
    (ht : p.property_type = Option.none) (hm : p.mandatory = true)
    (hser : Dal.serializeProps ent.props inst.vals = Except.ok pvals) :
    Dal.propValue p PyVal.none = Except.ok Dal.SqlField.fNull ∧
    Dal.serialize p.property_type PyVal.none = Except.ok (Dal.SqlField.fJson PyVal.none) ∧
    Dal.SqlField.fNull ≠ Dal.SqlField.fJson PyVal.none ∧
    Dal.save ent tbl inst = Except.error (PyErr.integrityError "NOT NULL constraint failed") := by
  have hpv : Dal.propValue p PyVal.none = Except.ok Dal.SqlField.fNull := by
    simp [Dal.propValue, ht, hm, Dal.isNoneVal]
  refine ⟨hpv, by rw [ht]; rfl, fun h => Dal.SqlField.noConfusion h, ?_⟩
  obtain ⟨b, hb, hfb⟩ := Dal.mapE_get _ _ _ hser i (p, PyVal.none) hp
  have hbnull : b = Dal.SqlField.fNull := by
    rw [hpv] at hfb
    exact (Except.ok.inj hfb).symm
  subst hbnull
  have hmem : (p, Dal.SqlField.fNull) ∈ ent.props.zip pvals :=
    List.getElem?_mem
      ((getElem?_zip_iff _ _ _ _ _).mpr ⟨((getElem?_zip_iff _ _ i _ _).mp hp).1, hb⟩)
  have hnn : Dal.notNullViolation ent.props pvals = true := by
    refine List.any_eq_true.mpr ⟨(p, Dal.SqlField.fNull), hmem, ?_⟩
    simp [hm, Dal.isNullField]
  simp only [Dal.save, hser, hnn, if_pos]

/-- Witness for C7_mandatory_untyped_null: saving an instance whose
mandatory untyped property is None fails with the constraint violation. -/
theorem C7_witness :
    Dal.save entC7 ⟨1, []⟩ ⟨Option.none, [PyVal.none], []⟩
      = Except.error (PyErr.integrityError "NOT NULL constraint failed") :=
  (C7_mandatory_untyped_null entC7 ⟨1, []⟩ ⟨Option.none, [PyVal.none], []⟩ 0
    ⟨"payload", Option.none, false, true⟩ [Dal.SqlField.fNull] rfl rfl rfl rfl).2.2.2

/-- Witness for C6_insert_then_update: the first save of a fresh instance
assigns identifier 1 and grows the empty table to one row. -/
theorem C6_witness :
    (⟨some 1, [PyVal.str "d1"], []⟩ : Dal.Instance).id = some 1 ∧
    (⟨2, [⟨1, [Dal.SqlField.fText "d1"], []⟩]⟩ : Dal.Table).rows.length
      = (⟨1, []⟩ : Dal.Table).rows.length + 1 := by
  have h := C6_insert_then_update entC6 ⟨1, []⟩ ⟨Option.none, [PyVal.str "d1"], []⟩
    ⟨2, [⟨1, [Dal.SqlField.fText "d1"], []⟩]⟩ ⟨some 1, [PyVal.str "d1"], []⟩ rfl rfl
  exact ⟨h.1, h.2.1⟩

/-- Serialization followed by deserialization is the identity on values
valid for their declared semantic type. -/
theorem Dal.roundtrip_field (t : Option Dal.PType) (v : PyVal) (f : Dal.SqlField)
    (hv : Dal.validFor t v = true) (hs : Dal.serialize t v = Except.ok f) :
    Dal.deserialize t f = Except.ok v := by
  cases t with
  | none => cases hs; rfl
  | some pt =>
    cases pt with
    | int =>
      cases v with
      | int i => cases hs; rfl
      | _ => simp [Dal.validFor] at hv
    | str =>
      cases v with
      | str s => cases hs; rfl
      | _ => simp [Dal.validFor] at hv
    | list => cases hs; rfl
    | dict => cases hs; rfl
    | bool =>
      cases v with
      | bool b => cases b <;> (cases hs; rfl)
      | _ => simp [Dal.validFor] at hv

/-- Only the value None satisfies isNoneVal. -/
theorem Dal.isNoneVal_eq_true {v : PyVal} (h : Dal.isNoneVal v = true) : v = PyVal.none := by
  cases v <;> simp [Dal.isNoneVal] at h ⊢

/-- Deserializing the columns save wrote reproduces the original property
values, position by position, for values valid for their declared types.
The mandatory-untyped-None special case also round-trips: its literal
NULL deserializes back to None. -/
theorem Dal.roundtrip_props (props : List Dal.PropDef) (vals : List PyVal)
    (pvals : List Dal.SqlField)
    (hlen : vals.length = props.length)
    (hser : Dal.serializeProps props vals = Except.ok pvals)
    (hvalid : ∀ pv ∈ props.zip vals, Dal.validFor pv.1.property_type pv.2 = true) :
    Dal.mapE (fun pf => Dal.deserialize pf.1.property_type pf.2) (props.zip pvals)
      = Except.ok vals := by
  induction props generalizing vals pvals with
  | nil =>
    have hv : vals = [] := List.length_eq_zero.mp hlen
    subst hv
    have hp : pvals = [] := by
      simp only [Dal.serializeProps, List.zip_nil_left, Dal.mapE] at hser
      exact (Except.ok.inj hser).symm
    subst hp
    rfl
  | cons p ps ih =>
    cases vals with
    | nil => simp at hlen
    | cons v vs =>
      simp only [Dal.serializeProps, List.zip_cons_cons, Dal.mapE] at hser
      cases hf : Dal.propValue p v with
      | error e => rw [hf] at hser; exact Except.noConfusion hser
      | ok f0 =>
        rw [hf] at hser
        cases hrest : Dal.mapE (fun pv => Dal.propValue pv.1 pv.2) (List.zipWith Prod.mk ps vs) with
        | error e => rw [hrest] at hser; exact Except.noConfusion hser
        | ok fs =>
          rw [hrest] at hser
          cases hser
          have hlen2 : vs.length = ps.length := by simpa using hlen
          have hvalid1 : Dal.validFor p.property_type v = true :=
            hvalid (p, v) (by simp [List.zip_cons_cons])
          have hvalid2 : ∀ pv ∈ ps.zip vs, Dal.validFor pv.1.property_type pv.2 = true :=
            fun pv hpv => hvalid pv (by simp [List.zip_cons_cons, hpv])
          have hhead : Dal.deserialize p.property_type f0 = Except.ok v := by
            unfold Dal.propValue at hf
            by_cases hc : (decide (p.property_type = Option.none) && p.mandatory
                && Dal.isNoneVal v) = true
            · rw [if_pos hc] at hf
              simp only [Bool.and_eq_true, decide_eq_true_eq] at hc
              obtain ⟨⟨ht, _⟩, hn⟩ := hc
              have hv0 := Dal.isNoneVal_eq_true hn
              subst hv0
              rw [ht, ← Except.ok.inj hf]
              rfl
            · rw [if_neg (by simpa using hc)] at hf
              exact Dal.roundtrip_field p.property_type v f0 hvalid1 hf
          have htail := ih vs fs hlen2 hrest hvalid2
          simp only [List.zip] at htail
          simp only [List.zip_cons_cons, Dal.mapE, hhead, htail]

/-- A freshly appended row with an identifier no existing row carries is
what a lookup by that identifier finds. -/
theorem Dal.find_append_fresh (rows : List Dal.Row) (row : Dal.Row)
    (h : ∀ r ∈ rows, r.id ≠ row.id) :
    (rows ++ [row]).find? (fun r => r.id == row.id) = some row := by
  induction rows with
  | nil => simp [List.find?]
  | cons r rs ih =>
    have hr : (r.id == row.id) = false := by
      simpa using h r (by simp)
    rw [List.cons_append, List.find?_cons_of_neg _ (by simp [hr])]
    exact ih (fun r2 hr2 => h r2 (by simp [hr2]))

/-- After updating every row carrying an identifier, a lookup by that
identifier finds the updated row (provided such a row existed). -/
theorem Dal.find_update (rows : List Dal.Row) (i : Nat) (row2 : Dal.Row)
    (hid : row2.id = i) (hex : ∃ r ∈ rows, r.id = i) :
    (rows.map (fun r => if r.id = i then row2 else r)).find? (fun r => r.id == i)
      = some row2 := by
  induction rows with
  | nil => simp at hex
  | cons r rs ih =>
    by_cases h : r.id = i
    · rw [List.map_cons, if_pos h, List.find?_cons_of_pos _ (by simp [hid])]
    · rw [List.map_cons, if_neg h, List.find?_cons_of_neg _ (by simp [h])]
      apply ih
      obtain ⟨r2, hr2, hi⟩ := hex
      rcases List.mem_cons.mp hr2 with rfl | hmem
      · exact absurd hi h
      · exact ⟨r2, hmem, hi⟩

/-- Claim C5: save followed by constructing a new instance with the saved
identifier reproduces the scalar property values exactly and the
relation foreign identifiers exactly (with the cached objects reset),
whenever the property values are valid for their declared semantic types
— serialization followed by deserialization is the identity on them.
The table hypotheses state the AUTOINCREMENT invariant (existing row
identifiers are below the next identifier) and that a non-None instance
identifier refers to an existing row. -/
theorem C5_roundtrip (ent : Dal.EntityDef) (tbl : Dal.Table) (inst : Dal.Instance)
    (tbl2 : Dal.Table) (inst2 : Dal.Instance)
    (hlen : inst.vals.length = ent.props.length)
    (hvalid : ∀ pv ∈ ent.props.zip inst.vals, Dal.validFor pv.1.property_type pv.2 = true)
    (htbl : ∀ r ∈ tbl.rows, r.id < tbl.nextId)
    (hex : ∀ i, inst.id = some i → ∃ r ∈ tbl.rows, r.id = i)
    (hok : Dal.save ent tbl inst = Except.ok (tbl2, inst2)) :
    ∃ i, inst2.id = some i ∧
      Dal.load ent tbl2 i
        = Except.ok ⟨some i, inst.vals, inst.relData.map (fun d => ⟨d.id, Option.none⟩)⟩ := by
  cases hser : Dal.serializeProps ent.props inst.vals with
  | error m =>
    simp only [Dal.save, hser] at hok
    exact Except.noConfusion hok
  | ok pvals =>
    simp only [Dal.save, hser] at hok
    by_cases hnn : Dal.notNullViolation ent.props pvals = true
    · rw [if_pos hnn] at hok
      exact Except.noConfusion hok
    · rw [if_neg hnn] at hok
      cases hid : inst.id with
      | none =>
        simp only [hid] at hok
        cases hok
        refine ⟨tbl.nextId, rfl, ?_⟩
        have hfind : ((tbl.rows ++
              [⟨tbl.nextId, pvals, inst.relData.map (fun d => d.id)⟩] : List Dal.Row).find?
              (fun r => r.id == tbl.nextId))
            = some ⟨tbl.nextId, pvals, inst.relData.map (fun d => d.id)⟩ :=
          Dal.find_append_fresh tbl.rows
            ⟨tbl.nextId, pvals, inst.relData.map (fun d => d.id)⟩
            (fun r hr => Nat.ne_of_lt (htbl r hr))
        simp only [Dal.load, hfind,
          Dal.roundtrip_props ent.props inst.vals pvals hlen hser hvalid]
        simp [List.map_map, Function.comp]
      | some i =>
        simp only [hid] at hok
        cases hok
        refine ⟨i, hid, ?_⟩
        have hfind := Dal.find_update tbl.rows i
          ⟨i, pvals, inst.relData.map (fun d => d.id)⟩ rfl (hex i hid)
        simp only [Dal.load, hfind,
          Dal.roundtrip_props ent.props inst.vals pvals hlen hser hvalid]
        simp [List.map_map, Function.comp]

/-- Witness for C5_roundtrip: a save of the six-typed instance into the
empty table, reloaded by the assigned identifier 1, reproduces every
property value and the relation identifier. -/
theorem C5_witness :
    ∃ i, (⟨some 1, instC5.vals, instC5.relData⟩ : Dal.Instance).id = some i ∧
      Dal.load entC5 tblC5b i
        = Except.ok ⟨some i, instC5.vals, instC5.relData.map (fun d => ⟨d.id, Option.none⟩)⟩ :=
  C5_roundtrip entC5 ⟨1, []⟩ instC5 tblC5b ⟨some 1, instC5.vals, instC5.relData⟩
    rfl (by decide) (by decide) (fun i h => Option.noConfusion h) rfl
